import Mathlib

/-!
Gesture rock-paper-scissors: classifier and round controller.

A shallow embedding of `src/script.js`.  The module-level variables of the script
(`lastHandTimestamp`, `lastRecognizedGesture`, `isCountdownRunning`,
`activeCountdownTimer`, `countdownValue`, `currentMode`, `state.scores`) become the
fields of one record `State`, and every function that mutates them becomes a
function `State → State`.  The browser facilities the script relies on are explicit:

* `performance.now()` is an argument `now : ℚ` (milliseconds, exact);
* `Math.random()` is an argument `random : ℚ`, the exact value of the double it returns,
  and its product with `options.length` is rounded to a double as the script computes it;
* `setInterval` / `setTimeout` / `clearInterval` act on a list of pending timers kept
  in the state, and a timer firing is the event `Event.timer`;
* landmark coordinates are exact rationals;
* a JavaScript `undefined` result, or a `TypeError` raised by reading a property of
  `undefined`, is `none`.

Of the DOM only the texts that carry decisions are kept: the countdown element
(as the list of everything written to it), the result banner, the AI gesture label
and the disabled flag of the two start buttons.
-/

namespace RPS

/-! ## Constants -/

/-- Source `const COUNTDOWN_SECONDS = 3`. -/
def COUNTDOWN_SECONDS : ℤ := 3

/-- Source `const HAND_PRESENT_TIMEOUT_MS = 1200`. -/
def HAND_PRESENT_TIMEOUT_MS : ℚ := 1200

/-- Source `const THUMB_EXTENSION_TOLERANCE = 0.12`. -/
def THUMB_EXTENSION_TOLERANCE : ℚ := 12 / 100

/-- Source `const FINGER_EXTENSION_TOLERANCE = 0.02`. -/
def FINGER_EXTENSION_TOLERANCE : ℚ := 2 / 100

/-- The four values of the `GESTURE` table. -/
inductive Gesture
  | ROCK
  | PAPER
  | SCISSORS
  | UNKNOWN
  deriving DecidableEq, Repr

/-- Source `AI_MODE.NORMAL = "normal"`.  A mode is a JavaScript string: nothing in the script
restricts the argument of `startRound` or `chooseAiGesture` to the two table values. -/
def AI_MODE.NORMAL : String := "normal"

/-- Source `AI_MODE.EVIL = "evil"`. -/
def AI_MODE.EVIL : String := "evil"

/-! ## Gesture classifier -/

/-- One landmark `{x, y, z}` of the tracker. -/
structure LandmarkPoint where
  x : ℚ
  y : ℚ
  z : ℚ
  deriving DecidableEq, Repr

/-- The object returned by `computeFingerStates`. -/
structure FingerStates where
  thumb : Bool
  index : Bool
  middle : Bool
  ring : Bool
  pinky : Bool
  confidence : String
  deriving DecidableEq, Repr

/-- The handedness labels the tracker attaches to a frame. -/
inductive Handedness
  | LEFT
  | RIGHT
  deriving DecidableEq, Repr

/-- The label string of a handedness, as the tracker reports it. -/
def Handedness.label : Handedness → String
  | Handedness.LEFT => "Left"
  | Handedness.RIGHT => "Right"

/-- Source `String.prototype.toLowerCase`, character by character on the ASCII letters;
no other character lowers to a letter of "right". -/
def toLowerCase (s : String) : String := String.mk (s.data.map Char.toLower)

/-- The body of the `forEach` over `fingerDescriptors`: the finger with descriptor
`{tip, pip}` is extended when its tip lies above its pip joint by more than the tolerance.
`none` when one of the two landmarks is missing from the frame. -/
def fingerExtended (landmarks : List LandmarkPoint) (tip pip : ℕ) : Option Bool := do
  let tipLandmark ← landmarks[tip]?
  let pipLandmark ← landmarks[pip]?
  pure (decide (tipLandmark.y < pipLandmark.y - FINGER_EXTENSION_TOLERANCE))

/-- Source `computeFingerStates(landmarks, handedness)`.  The descriptors are
`index: {tip: 8, pip: 6}`, `middle: {tip: 12, pip: 10}`, `ring: {tip: 16, pip: 14}`,
`pinky: {tip: 20, pip: 18}`. -/
def computeFingerStates (landmarks : List LandmarkPoint) (handedness : String) :
    Option FingerStates := do
  let thumbTip ← landmarks[4]?
  let thumbIP ← landmarks[3]?
  let isRightHand : Bool := toLowerCase handedness == "right"
  let thumbExtended : Bool :=
    if isRightHand then decide (thumbTip.x < thumbIP.x - THUMB_EXTENSION_TOLERANCE)
    else decide (thumbTip.x > thumbIP.x + THUMB_EXTENSION_TOLERANCE)
  let index ← fingerExtended landmarks 8 6
  let middle ← fingerExtended landmarks 12 10
  let ring ← fingerExtended landmarks 16 14
  let pinky ← fingerExtended landmarks 20 18
  let wrist ← landmarks[0]?
  let confidence : String := if |wrist.z| < 2 / 10 then "front" else "angled"
  pure { thumb := thumbExtended, index := index, middle := middle, ring := ring,
         pinky := pinky, confidence := confidence }

/-- Source `classifyGesture(fingers)`. -/
def classifyGesture (fingers : FingerStates) : Gesture :=
  let allExtended := fingers.thumb && fingers.index && fingers.middle && fingers.ring
    && fingers.pinky
  let noneExtended := !fingers.thumb && !fingers.index && !fingers.middle && !fingers.ring
    && !fingers.pinky
  let scissors := !fingers.thumb && fingers.index && fingers.middle && !fingers.ring
    && !fingers.pinky
  if allExtended then Gesture.PAPER
  else if noneExtended then Gesture.ROCK
  else if scissors then Gesture.SCISSORS
  else Gesture.UNKNOWN

/-- The finger-state object with the given five extension booleans. -/
def fingersOf (thumb index middle ring pinky : Bool) : FingerStates :=
  { thumb := thumb, index := index, middle := middle, ring := ring, pinky := pinky,
    confidence := "front" }

/-! ## AI gesture selection -/

/-- The array `options` of `chooseAiGesture`. -/
def options : List Gesture := [Gesture.ROCK, Gesture.PAPER, Gesture.SCISSORS]

/-- Rounding to the nearest integer, a tie going to the even one. -/
def roundHalfEven (x : ℚ) : ℤ :=
  let f := ⌊x⌋
  if x - f < 1 / 2 then f
  else if 1 / 2 < x - f then f + 1
  else if f % 2 = 0 then f else f + 1

/-- The spacing of the doubles around `x`: 52 binary places below the leading bit, and
never finer than the subnormal spacing `2 ^ (-1074)`. -/
def ulp (x : ℚ) : ℚ := (2 : ℚ) ^ (max (Int.log 2 |x|) (-1022) - 52)

/-- The double nearest to `x`, ties to even: the result of a JavaScript arithmetic
operation whose exact value is `x`, for `x` of magnitude below `2 ^ 1024`. -/
def roundDouble (x : ℚ) : ℚ := (roundHalfEven (x / ulp x) : ℚ) * ulp x

/-- The rational `x` is the value of a double. -/
def isDouble (x : ℚ) : Prop := roundDouble x = x

/-- Whether a rational is the value of a double can be computed. -/
instance isDouble.decidable (x : ℚ) : Decidable (isDouble x) :=
  inferInstanceAs (Decidable (roundDouble x = x))

/-- Source `Math.floor(Math.random() * options.length)` for the draw `random`: the product
is a double multiplication, the floor is exact. -/
def randomIndex (random : ℚ) : ℤ := ⌊roundDouble (random * (options.length : ℚ))⌋

/-- Array indexing `xs[i]` with an integer index: `none` (JavaScript `undefined`) outside
the array. -/
def elementAt (xs : List Gesture) (i : ℤ) : Option Gesture :=
  if 0 ≤ i then xs[i.toNat]? else none

mutual

/-- Source `chooseAiGesture(mode, playerGesture)`, with the value of `Math.random()` as third
argument. -/
def chooseAiGesture (mode : String) (playerGesture : Gesture) (random : ℚ) :
    Option Gesture :=
  if mode = AI_MODE.EVIL ∧ playerGesture ≠ Gesture.UNKNOWN then
    getWinningGestureAgainst playerGesture random
  else
    elementAt options (randomIndex random)
termination_by (if mode = AI_MODE.EVIL ∧ playerGesture ≠ Gesture.UNKNOWN then 2 else 0)
decreasing_by all_goals simp_wf; simp_all

/-- Source `getWinningGestureAgainst(playerGesture)`; the `default` branch, which of the
four gestures only UNKNOWN reaches, calls back into
`chooseAiGesture(AI_MODE.NORMAL, GESTURE.UNKNOWN)`. -/
def getWinningGestureAgainst (playerGesture : Gesture) (random : ℚ) : Option Gesture :=
  match playerGesture with
  | Gesture.ROCK => some Gesture.PAPER
  | Gesture.PAPER => some Gesture.SCISSORS
  | Gesture.SCISSORS => some Gesture.ROCK
  | Gesture.UNKNOWN => chooseAiGesture AI_MODE.NORMAL Gesture.UNKNOWN random
termination_by 1
decreasing_by all_goals simp_wf

end

/-! ## Controller state -/

/-- The object `state.scores`.  The tallies are natural numbers: JavaScript addition of 1
is exact on them below `2 ^ 53`. -/
structure Scores where
  player : ℕ
  ai : ℕ
  draw : ℕ
  deriving DecidableEq, Repr

/-- The three timer callbacks of the controller: the `setInterval` callback of
`runCountdown`, the `setTimeout` callback of `runCountdown` (which calls `concludeRound`)
and the `setTimeout` callback of `concludeRound`. -/
inductive TimerCallback
  | countdownTick
  | settle
  | cooldown
  deriving DecidableEq, Repr

/-- A pending browser timer. -/
structure Timer where
  id : ℕ
  delay : ℕ
  repeats : Bool
  callback : TimerCallback
  deriving DecidableEq, Repr

/-- A value written to `elements.countdown.textContent`. -/
inductive CountdownText
  | text (s : String)
  | number (n : ℤ)
  deriving DecidableEq, Repr

/-- The module-level variables of the script, the kept part of the DOM and the pending
timers of the browser. -/
structure State where
  lastHandTimestamp : ℚ
  lastRecognizedGesture : Gesture
  isCountdownRunning : Bool
  activeCountdownTimer : Option ℕ
  countdownValue : ℤ
  currentMode : String
  scores : Scores
  countdownText : List CountdownText
  banner : String
  aiGestureLabel : Option Gesture
  startButtonsDisabled : Bool
  timers : List Timer
  nextTimerId : ℕ
  deriving DecidableEq, Repr

/-- The state when the script has been loaded. -/
def initialState : State :=
  { lastHandTimestamp := 0
    lastRecognizedGesture := Gesture.UNKNOWN
    isCountdownRunning := false
    activeCountdownTimer := none
    countdownValue := COUNTDOWN_SECONDS
    currentMode := AI_MODE.NORMAL
    scores := { player := 0, ai := 0, draw := 0 }
    countdownText := []
    banner := ""
    aiGestureLabel := none
    startButtonsDisabled := false
    timers := []
    nextTimerId := 1 }

/-- Source `setInterval(callback, delay)`: registers a repeating timer and returns its id. -/
def setInterval (callback : TimerCallback) (delay : ℕ) (s : State) : ℕ × State :=
  (s.nextTimerId,
   { s with timers := s.timers ++ [{ id := s.nextTimerId, delay := delay, repeats := true,
                                      callback := callback }]
            nextTimerId := s.nextTimerId + 1 })

/-- Source `setTimeout(callback, delay)`: registers a one-shot timer. -/
def setTimeout (callback : TimerCallback) (delay : ℕ) (s : State) : State :=
  { s with timers := s.timers ++ [{ id := s.nextTimerId, delay := delay, repeats := false,
                                     callback := callback }]
           nextTimerId := s.nextTimerId + 1 }

/-- Source `clearInterval(id)`: cancels the timer with that id; an `undefined` id cancels
nothing. -/
def clearInterval (id : Option ℕ) (s : State) : State :=
  match id with
  | none => s
  | some i => { s with timers := s.timers.filter fun t => t.id != i }

/-! ## Round controller -/

/-- Source `determineWinner(playerGesture, aiGesture)`. -/
def determineWinner (playerGesture aiGesture : Gesture) (s : State) : State :=
  if playerGesture = Gesture.UNKNOWN then
    { s with banner := "Gesture unclear. Try again." }
  else if playerGesture = aiGesture then
    { s with scores := { s.scores with draw := s.scores.draw + 1 }
             banner := "It\x27s a draw!" }
  else
    let playerWins : Bool :=
      (playerGesture = Gesture.ROCK && aiGesture = Gesture.SCISSORS) ||
      (playerGesture = Gesture.PAPER && aiGesture = Gesture.ROCK) ||
      (playerGesture = Gesture.SCISSORS && aiGesture = Gesture.PAPER)
    if playerWins then
      { s with scores := { s.scores with player := s.scores.player + 1 }
               banner := "Player wins!" }
    else
      { s with scores := { s.scores with ai := s.scores.ai + 1 }
               banner := "AI takes the round!" }

/-- Source `disableStartButtons(disabled)`. -/
def disableStartButtons (disabled : Bool) (s : State) : State :=
  { s with startButtonsDisabled := disabled }

/-- Source `resetCountdownUi()`. -/
def resetCountdownUi (s : State) : State :=
  { s with countdownValue := COUNTDOWN_SECONDS
           countdownText := s.countdownText ++ [CountdownText.text "Ready"]
           banner := "Counting down..." }

/-- Source `runCountdown()`: shows the counter and starts the one-second interval. -/
def runCountdown (s : State) : State :=
  let s1 := { s with countdownText := s.countdownText ++ [CountdownText.number s.countdownValue] }
  let r := setInterval TimerCallback.countdownTick 1000 s1
  { r.2 with activeCountdownTimer := some r.1 }

/-- The callback given to `setInterval` in `runCountdown`. -/
def countdownTick (s : State) : State :=
  let s1 := { s with countdownValue := s.countdownValue - 1 }
  if s1.countdownValue > 0 then
    { s1 with countdownText := s1.countdownText ++ [CountdownText.number s1.countdownValue] }
  else
    let s2 := clearInterval s1.activeCountdownTimer s1
    let s3 := { s2 with countdownText := s2.countdownText ++ [CountdownText.text "SHOOT!"] }
    setTimeout TimerCallback.settle 200 s3

/-- Source `concludeRound()`, with the value of `Math.random()`.  When `chooseAiGesture` yields
`undefined`, `updateAiGestureUi` raises a `TypeError` and the rest of the function is not
run. -/
def concludeRound (random : ℚ) (s : State) : State :=
  let playerGesture := s.lastRecognizedGesture
  match chooseAiGesture s.currentMode playerGesture random with
  | none => s
  | some aiGesture =>
    let s1 := { s with aiGestureLabel := some aiGesture }
    let s2 := determineWinner playerGesture aiGesture s1
    setTimeout TimerCallback.cooldown 1500 s2

/-- The callback given to `setTimeout` in `concludeRound`. -/
def cooldownElapsed (s : State) : State :=
  let s1 := { s with countdownText := s.countdownText ++ [CountdownText.text "Hand ready?"] }
  let s2 := disableStartButtons false s1
  { s2 with isCountdownRunning := false }

/-- Source `startRound(mode)`, called when `performance.now()` is `now`. -/
def startRound (mode : String) (now : ℚ) (s : State) : State :=
  if s.isCountdownRunning then s
  else
    let timeSinceLastHand := now - s.lastHandTimestamp
    if timeSinceLastHand > HAND_PRESENT_TIMEOUT_MS then
      { s with countdownText :=
          s.countdownText ++ [CountdownText.text "Show your hand to start"] }
    else
      let s1 := { s with currentMode := mode, isCountdownRunning := true }
      let s2 := disableStartButtons true s1
      let s3 := resetCountdownUi s2
      runCountdown s3

/-- Source `onResults(results)`, called when `performance.now()` is `now`.  `results` is `none`
when no hand is in the frame, and otherwise the landmarks of the first hand with its
handedness label, if any.  A `TypeError` in `computeFingerStates` ends the callback after
the timestamp has been stored. -/
def onResults (results : Option (List LandmarkPoint × Option String)) (now : ℚ)
    (s : State) : State :=
  match results with
  | some (landmarks, label) =>
    let s1 := { s with lastHandTimestamp := now }
    let handedness : String :=
      match label with
      | some l => if l = "" then "Right" else l
      | none => "Right"
    match computeFingerStates landmarks handedness with
    | none => s1
    | some fingerStates => { s1 with lastRecognizedGesture := classifyGesture fingerStates }
  | none =>
    let timeSinceLastHand := now - s.lastHandTimestamp
    if timeSinceLastHand > HAND_PRESENT_TIMEOUT_MS then
      { s with lastRecognizedGesture := Gesture.UNKNOWN }
    else s

/-- The browser runs the timer with the given id, if it is pending: a one-shot timer is
removed before its callback runs, a repeating one stays. -/
def fireTimer (id : ℕ) (random : ℚ) (s : State) : State :=
  match s.timers.find? fun t => t.id == id with
  | none => s
  | some t =>
    let s1 := if t.repeats then s else { s with timers := s.timers.filter fun u => u.id != id }
    match t.callback with
    | TimerCallback.countdownTick => countdownTick s1
    | TimerCallback.settle => concludeRound random s1
    | TimerCallback.cooldown => cooldownElapsed s1

/-- What can happen to the controller: a click on a start button, a tracker result, a
timer firing. -/
inductive Event
  | click (mode : String) (now : ℚ)
  | frame (results : Option (List LandmarkPoint × Option String)) (now : ℚ)
  | timer (id : ℕ) (random : ℚ)

/-- One event applied to the controller. -/
def step (s : State) : Event → State
  | Event.click mode now => startRound mode now s
  | Event.frame results now => onResults results now s
  | Event.timer id random => fireTimer id random s

/-- The states the controller can be in: the initial one and every state one event
later. -/
inductive Reachable : State → Prop
  | init : Reachable initialState
  | next (s : State) (e : Event) : Reachable s → Reachable (step s e)

/-- A round is in progress: the flag set by an accepted `startRound` is still up, or a
timer of the round is still pending. -/
def roundInProgress (s : State) : Prop :=
  s.isCountdownRunning = true ∨ s.timers ≠ []

/-- The state after the timer `id` has fired `k` times. -/
def ticks (id : ℕ) : ℕ → State → State
  | 0, s => s
  | k + 1, s => fireTimer id 0 (ticks id k s)

/-- The counter values `N, N - 1, ..., N - k + 1` as countdown texts. -/
def countingDown (N : ℤ) (k : ℕ) : List CountdownText :=
  (List.range k).map fun (i : ℕ) => CountdownText.number (N - (i : ℤ))

/-- Invariant of the controller: at most one timer is pending, the flag is up while it is,
a pending countdown interval is the one `activeCountdownTimer` names, and the other two
timers are one-shot. -/
def TimerInv (s : State) : Prop :=
  s.timers = [] ∨
    (s.isCountdownRunning = true ∧ ∃ t, s.timers = [t] ∧
      (t.callback = TimerCallback.countdownTick → s.activeCountdownTimer = some t.id) ∧
      (t.callback ≠ TimerCallback.countdownTick → t.repeats = false))

/-- A 21-point frame whose thumb tip (landmark 4) lies far to the left of every other
landmark, and whose other landmarks coincide. -/
def sampleFrame : List LandmarkPoint :=
  (List.range 21).map fun (i : ℕ) =>
    if i = 4 then { x := 1 / 5, y := 1 / 2, z := 0 } else { x := 1 / 2, y := 1 / 2, z := 0 }

/-- The controller in the cooldown phase of its first round: start accepted at 1000 ms,
three ticks, the settle timer, with the draw `1 / 2`. -/
def cooldownState : State :=
  step (ticks 1 3 (step initialState (Event.click AI_MODE.NORMAL 1000))) (Event.timer 2 (1 / 2))

/-- The double written `0.6666666666666666`, the largest one below two thirds. Its exact
triple is `2 - 2 ^ (-53)`, which lies below 2 and which the double product rounds to 2. -/
def twoThirdsBelow : ℚ := 6004799503160661 / 2 ^ 53

/-! ## Equations of the AI selection -/

/-- In EVIL mode with a recognised gesture the selection is the counter-move lookup. -/
theorem chooseAiGesture_evil (p : Gesture) (random : ℚ) (hp : p ≠ Gesture.UNKNOWN) :
    chooseAiGesture AI_MODE.EVIL p random = getWinningGestureAgainst p random := by
  rw [chooseAiGesture]; simp [hp]

/-- Outside that case the selection is the array element at the random index. -/
theorem chooseAiGesture_random (mode : String) (p : Gesture) (random : ℚ)
    (h : ¬ (mode = AI_MODE.EVIL ∧ p ≠ Gesture.UNKNOWN)) :
    chooseAiGesture mode p random = elementAt options (randomIndex random) := by
  rw [chooseAiGesture]; simp only [h, if_false]

/-- Rounding moves a number up by at most one half. -/
theorem roundHalfEven_le (y : ℚ) : (roundHalfEven y : ℚ) ≤ y + 1 / 2 := by
  unfold roundHalfEven
  have h1 := Int.floor_le y
  have h2 := Int.lt_floor_add_one y
  simp only
  split_ifs with ha hb hc
  · linarith
  · push_cast; linarith
  · linarith
  · push_cast; linarith

/-- Rounding moves a number down by at most one half. -/
theorem roundHalfEven_ge (y : ℚ) : y - 1 / 2 ≤ (roundHalfEven y : ℚ) := by
  unfold roundHalfEven
  have h1 := Int.floor_le y
  have h2 := Int.lt_floor_add_one y
  simp only
  split_ifs with ha hb hc
  · linarith
  · push_cast; linarith
  · linarith
  · push_cast; linarith

/-- Rounding keeps a number that is not negative so. -/
theorem roundHalfEven_nonneg (y : ℚ) (hy : 0 ≤ y) : 0 ≤ roundHalfEven y := by
  unfold roundHalfEven
  have h1 : 0 ≤ ⌊y⌋ := Int.floor_nonneg.mpr hy
  simp only
  split_ifs <;> omega

/-- The spacing is positive. -/
theorem ulp_pos (x : ℚ) : 0 < ulp x := by
  unfold ulp; positivity

/-- The spacing on the binade from `2 ^ L` to `2 ^ (L + 1)`. -/
theorem ulp_of_binade (x : ℚ) (L : ℤ) (hL : -1022 ≤ L) (h1 : (2 : ℚ) ^ L ≤ x)
    (h2 : x < (2 : ℚ) ^ (L + 1)) : ulp x = (2 : ℚ) ^ (L - 52) := by
  have hx : 0 < x := lt_of_lt_of_le (by positivity) h1
  have hlog : Int.log 2 x = L := by
    apply le_antisymm
    · have := (Int.lt_zpow_iff_log_lt (R := ℚ) (b := 2) (by norm_num) hx).mp (by exact_mod_cast h2)
      omega
    · exact (Int.zpow_le_iff_le_log (R := ℚ) (b := 2) (by norm_num) hx).mp (by exact_mod_cast h1)
  unfold ulp
  rw [abs_of_pos hx, hlog, max_eq_left hL]

/-- Below one half the spacing is at most `2 ^ (-54)`. -/
theorem ulp_small (x : ℚ) (h0 : 0 < x) (h1 : x < 1 / 2) : ulp x ≤ 1 / 2 ^ 54 := by
  have hlog : Int.log 2 x < -1 :=
    (Int.lt_zpow_iff_log_lt (R := ℚ) (b := 2) (by norm_num) h0).mp (by norm_num; linarith)
  unfold ulp
  rw [abs_of_pos h0]
  have : max (Int.log 2 x) (-1022) - 52 ≤ -54 := by
    have := max_le (a := Int.log 2 x) (b := -1022) (c := -2) (by omega) (by norm_num)
    omega
  calc (2 : ℚ) ^ (max (Int.log 2 x) (-1022) - 52) ≤ (2 : ℚ) ^ (-54 : ℤ) :=
        zpow_le_zpow_right₀ (by norm_num) this
    _ = 1 / 2 ^ 54 := by norm_num



/-- The rounded value is at most half a spacing above the exact one. -/
theorem roundDouble_le (x : ℚ) : roundDouble x ≤ x + ulp x / 2 := by
  have hq := ulp_pos x
  have h := roundHalfEven_le (x / ulp x)
  have := mul_le_mul_of_nonneg_right h hq.le
  unfold roundDouble
  calc (roundHalfEven (x / ulp x) : ℚ) * ulp x ≤ (x / ulp x + 1 / 2) * ulp x := this
    _ = x + ulp x / 2 := by field_simp; ring

/-- The rounded value is at most half a spacing below the exact one. -/
theorem roundDouble_ge (x : ℚ) : x - ulp x / 2 ≤ roundDouble x := by
  have hq := ulp_pos x
  have h := roundHalfEven_ge (x / ulp x)
  have := mul_le_mul_of_nonneg_right h hq.le
  unfold roundDouble
  calc x - ulp x / 2 = (x / ulp x - 1 / 2) * ulp x := by field_simp; ring
    _ ≤ (roundHalfEven (x / ulp x) : ℚ) * ulp x := this

/-- Rounding a number that is not negative gives one that is not negative. -/
theorem roundDouble_nonneg (x : ℚ) (hx : 0 ≤ x) : 0 ≤ roundDouble x := by
  unfold roundDouble
  have hq := ulp_pos x
  have : 0 ≤ roundHalfEven (x / ulp x) := roundHalfEven_nonneg _ (div_nonneg hx hq.le)
  have : (0 : ℚ) ≤ (roundHalfEven (x / ulp x) : ℚ) := by exact_mod_cast this
  positivity

/-- Rounding on a binade: the result is a multiple `n` of the spacing, at most half a
spacing from the input. -/
theorem roundDouble_binade (x : ℚ) (L : ℤ) (hL : -1022 ≤ L) (h1 : (2 : ℚ) ^ L ≤ x)
    (h2 : x < (2 : ℚ) ^ (L + 1)) :
    ∃ n : ℤ, roundDouble x = (n : ℚ) * (2 : ℚ) ^ (L - 52) ∧
      x - (2 : ℚ) ^ (L - 52) / 2 ≤ (n : ℚ) * (2 : ℚ) ^ (L - 52) ∧
      (n : ℚ) * (2 : ℚ) ^ (L - 52) ≤ x + (2 : ℚ) ^ (L - 52) / 2 ∧
      n = roundHalfEven (x / (2 : ℚ) ^ (L - 52)) := by
  have hu := ulp_of_binade x L hL h1 h2
  have hr : roundDouble x = (roundHalfEven (x / (2 : ℚ) ^ (L - 52)) : ℚ) * (2 : ℚ) ^ (L - 52) := by
    unfold roundDouble; rw [hu]
  refine ⟨roundHalfEven (x / (2 : ℚ) ^ (L - 52)), hr, ?_, ?_, rfl⟩
  · have := roundDouble_ge x
    rw [hu, hr] at this; exact this
  · have := roundDouble_le x
    rw [hu, hr] at this; exact this

/-- A tie above an odd integer goes up. -/
theorem roundHalfEven_tie_odd (f : ℤ) (hodd : f % 2 = 1) :
    roundHalfEven ((f : ℚ) + 1 / 2) = f + 1 := by
  have hfl : ⌊(f : ℚ) + 1 / 2⌋ = f := by
    rw [Int.floor_eq_iff]; constructor <;> linarith
  unfold roundHalfEven
  simp only [hfl]
  have h1 : ¬ ((f : ℚ) + 1 / 2 - (f : ℚ) < 1 / 2) := by norm_num
  have h2 : ¬ ((1 : ℚ) / 2 < (f : ℚ) + 1 / 2 - (f : ℚ)) := by norm_num
  have h3 : ¬ (f % 2 = 0) := by omega
  simp only [h1, h2, h3, if_false]

/-- Below `1 - 2 ^ (-54)` the rounded value has floor 0. -/
theorem floor_roundDouble_zero (x : ℚ) (h0 : 0 ≤ x) (h1 : x < 1 - 1 / 2 ^ 54) :
    ⌊roundDouble x⌋ = 0 := by
  rw [Int.floor_eq_iff]
  refine ⟨by simpa using roundDouble_nonneg x h0, ?_⟩
  have hle := roundDouble_le x
  rcases lt_or_le x (1 / 2) with hx | hx
  · rcases eq_or_lt_of_le h0 with h | h
    · subst h
      have : roundDouble 0 = 0 := by simp [roundDouble, roundHalfEven]
      rw [this]; norm_num
    · have := ulp_small x h hx
      norm_num at this ⊢
      linarith
  · have hu := ulp_of_binade x (-1) (by norm_num) (by norm_num; linarith) (by norm_num; linarith)
    rw [hu] at hle
    norm_num at hle h1 ⊢
    linarith



/-- From half a spacing below 1 on, a number below 1 rounds to 1. -/
theorem roundDouble_near_one (x : ℚ) (h1 : 1 - 1 / 2 ^ 54 ≤ x) (h2 : x < 1) :
    roundDouble x = 1 := by
  obtain ⟨n, hr, hlo, hhi, hn⟩ :=
    roundDouble_binade x (-1) (by norm_num) (by norm_num; linarith) (by norm_num; linarith)
  norm_num at hr hlo hhi hn h1
  have hup : n ≤ 9007199254740992 := by
    have : (n : ℚ) < 9007199254740992 + 1 := by linarith
    have : n < 9007199254740992 + 1 := by exact_mod_cast this
    omega
  have hdown : 9007199254740992 ≤ n := by
    rcases eq_or_lt_of_le h1 with h | h
    · have hx : x / (1 / 9007199254740992) = ((9007199254740991 : ℤ) : ℚ) + 1 / 2 := by
        rw [← h]; norm_num
      rw [hn, hx, roundHalfEven_tie_odd _ (by norm_num)]
      norm_num
    · have : (9007199254740991 : ℚ) < n := by linarith
      have : (9007199254740991 : ℤ) < n := by exact_mod_cast this
      omega
  have : n = 9007199254740992 := by omega
  rw [hr, this]; norm_num

/-- The same just below 2. -/
theorem roundDouble_near_two (x : ℚ) (h1 : 2 - 1 / 2 ^ 53 ≤ x) (h2 : x < 2) :
    roundDouble x = 2 := by
  obtain ⟨n, hr, hlo, hhi, hn⟩ :=
    roundDouble_binade x 0 (by norm_num) (by norm_num; linarith) (by norm_num; linarith)
  norm_num at hr hlo hhi hn h1
  have hup : n ≤ 9007199254740992 := by
    have : (n : ℚ) < 9007199254740992 + 1 := by linarith
    have : n < 9007199254740992 + 1 := by exact_mod_cast this
    omega
  have hdown : 9007199254740992 ≤ n := by
    rcases eq_or_lt_of_le h1 with h | h
    · have hx : x / (1 / 4503599627370496) = ((9007199254740991 : ℤ) : ℚ) + 1 / 2 := by
        rw [← h]; norm_num
      rw [hn, hx, roundHalfEven_tie_odd _ (by norm_num)]
      norm_num
    · have : (9007199254740991 : ℚ) < n := by linarith
      have : (9007199254740991 : ℤ) < n := by exact_mod_cast this
      omega
  have : n = 9007199254740992 := by omega
  rw [hr, this]; norm_num

/-- From `1 - 2 ^ (-54)` to below `2 - 2 ^ (-53)` the rounded value has floor 1. -/
theorem floor_roundDouble_one (x : ℚ) (h1 : 1 - 1 / 2 ^ 54 ≤ x) (h2 : x < 2 - 1 / 2 ^ 53) :
    ⌊roundDouble x⌋ = 1 := by
  rcases lt_or_le x 1 with hx | hx
  · rw [roundDouble_near_one x h1 hx]; norm_num
  · obtain ⟨n, hr, hlo, hhi, -⟩ :=
      roundDouble_binade x 0 (by norm_num) (by norm_num; linarith)
        (by norm_num at h2 ⊢; linarith)
    norm_num at hr hlo hhi h2
    have hdown : 4503599627370496 ≤ n := by
      have : (4503599627370495 : ℚ) < n := by linarith
      have : (4503599627370495 : ℤ) < n := by exact_mod_cast this
      omega
    have hdown2 : (4503599627370496 : ℚ) ≤ n := by exact_mod_cast hdown
    rw [Int.floor_eq_iff, hr]
    constructor
    · push_cast; linarith
    · push_cast; linarith

/-- From `2 - 2 ^ (-53)` to below `3 - 2 ^ (-52)` the rounded value has floor 2. -/
theorem floor_roundDouble_two (x : ℚ) (h1 : 2 - 1 / 2 ^ 53 ≤ x) (h2 : x < 3 - 1 / 2 ^ 52) :
    ⌊roundDouble x⌋ = 2 := by
  rcases lt_or_le x 2 with hx | hx
  · rw [roundDouble_near_two x h1 hx]; norm_num
  · obtain ⟨n, hr, hlo, hhi, -⟩ :=
      roundDouble_binade x 1 (by norm_num) (by norm_num; linarith)
        (by norm_num at h2 ⊢; linarith)
    norm_num at hr hlo hhi h2
    have hdown : 4503599627370496 ≤ n := by
      have : (4503599627370495 : ℚ) < n := by linarith
      have : (4503599627370495 : ℤ) < n := by exact_mod_cast this
      omega
    have hdown2 : (4503599627370496 : ℚ) ≤ n := by exact_mod_cast hdown
    rw [Int.floor_eq_iff, hr]
    constructor
    · push_cast; linarith
    · push_cast; linarith

/-- A double below 1 is at most the largest double below 1. -/
theorem isDouble_lt_one (r : ℚ) (hd : isDouble r) (h1 : r < 1) :
    r ≤ 1 - 1 / 2 ^ 53 := by
  rcases lt_or_le r (1 / 2) with hr | hr
  · norm_num at hr ⊢; linarith
  · obtain ⟨n, hrn, -, -, -⟩ :=
      roundDouble_binade r (-1) (by norm_num) (by norm_num; linarith) (by norm_num; linarith)
    unfold isDouble at hd
    rw [hd] at hrn
    norm_num at hrn
    have : (n : ℚ) < 9007199254740992 := by linarith
    have : n < 9007199254740992 := by exact_mod_cast this
    have : n ≤ 9007199254740991 := by omega
    have : (n : ℚ) ≤ 9007199254740991 := by exact_mod_cast this
    norm_num
    linarith

/-- The random index is the floor of the rounded triple of the draw. -/
theorem randomIndex_eq (random : ℚ) : randomIndex random = ⌊roundDouble (random * 3)⌋ := by
  simp [randomIndex, options]

/-- The index of the draw `1 / 2` is 1. -/
theorem randomIndex_half : randomIndex (1 / 2) = 1 := by
  rw [randomIndex_eq]
  exact floor_roundDouble_one _ (by norm_num) (by norm_num)

/-- The element of the option array at each of its three indices. -/
theorem elementAt_options :
    elementAt options 0 = some Gesture.ROCK ∧ elementAt options 1 = some Gesture.PAPER ∧
    elementAt options 2 = some Gesture.SCISSORS := by
  simp [elementAt, options]

/-- The value `twoThirdsBelow` is a double. -/
theorem isDouble_twoThirdsBelow : isDouble twoThirdsBelow := by
  have hu : ulp twoThirdsBelow = (2 : ℚ) ^ ((-1 : ℤ) - 52) :=
    ulp_of_binade _ (-1) (by norm_num) (by norm_num [twoThirdsBelow])
      (by norm_num [twoThirdsBelow])
  have hq : twoThirdsBelow / (2 : ℚ) ^ ((-1 : ℤ) - 52) = ((6004799503160661 : ℤ) : ℚ) := by
    norm_num [twoThirdsBelow]
  have hfl : ⌊((6004799503160661 : ℤ) : ℚ)⌋ = 6004799503160661 := Int.floor_intCast _
  unfold isDouble roundDouble
  rw [hu, hq]
  unfold roundHalfEven
  simp only [hfl]
  norm_num [twoThirdsBelow]

/-! ## The timer invariant -/

/-- The invariant only reads the timers, the flag and the stored interval id. -/
theorem timerInv_congr (s s' : State) (h : TimerInv s) (h1 : s'.timers = s.timers)
    (h2 : s'.isCountdownRunning = s.isCountdownRunning)
    (h3 : s'.activeCountdownTimer = s.activeCountdownTimer) : TimerInv s' := by
  unfold TimerInv at *
  rw [h1, h2, h3]; exact h

theorem timerInv_initial : TimerInv initialState := Or.inl rfl

theorem timerInv_startRound (mode : String) (now : ℚ) (s : State) (h : TimerInv s) :
    TimerInv (startRound mode now s) := by
  cases hrun : s.isCountdownRunning with
  | true => simpa [startRound, hrun] using h
  | false =>
    have hnil : s.timers = [] := by
      rcases h with h | ⟨h, _⟩
      · exact h
      · rw [hrun] at h; cases h
    by_cases hhand : now - s.lastHandTimestamp > HAND_PRESENT_TIMEOUT_MS
    · left; simp [startRound, hrun, hhand, hnil]
    · right
      simp [startRound, hrun, hhand, runCountdown, resetCountdownUi, disableStartButtons,
        setInterval, hnil]

theorem timerInv_onResults (results : Option (List LandmarkPoint × Option String)) (now : ℚ)
    (s : State) (h : TimerInv s) : TimerInv (onResults results now s) := by
  apply timerInv_congr s _ h
  all_goals
    rcases results with _ | ⟨landmarks, label⟩
    · simp only [onResults]; split_ifs <;> rfl
    · simp only [onResults]; split <;> rfl

theorem timerInv_fireTimer (id : ℕ) (random : ℚ) (s : State) (h : TimerInv s) :
    TimerInv (fireTimer id random s) := by
  rcases h with h | ⟨hrun, t, ht, hact, hrep⟩
  · have : fireTimer id random s = s := by simp [fireTimer, h]
    rw [this]; exact Or.inl h
  · by_cases hid : t.id = id
    · obtain ⟨tid, delay, repeats, cb⟩ := t
      simp only at hid hact hrep
      subst hid
      cases cb
      · have hact2 := hact rfl
        by_cases hv : s.countdownValue - 1 > 0
        · cases repeats
          · left; simp [fireTimer, ht, List.find?, countdownTick, hv]
          · right; simp [fireTimer, ht, List.find?, countdownTick, hv, hrun, hact2]
        · right
          cases repeats <;>
            simp [fireTimer, ht, List.find?, countdownTick, hv, hrun, hact2, clearInterval,
              setTimeout]
      · have hr : repeats = false := hrep (by simp)
        subst hr
        simp only [fireTimer, ht, List.find?, beq_self_eq_true, concludeRound]
        split
        · left; simp
        · right; simp [setTimeout, determineWinner, hrun]
          split_ifs <;> simp [hrun]
      · have hr : repeats = false := hrep (by simp)
        subst hr
        left
        simp [fireTimer, ht, List.find?, cooldownElapsed, disableStartButtons]
    · have : fireTimer id random s = s := by
        simp [fireTimer, ht, List.find?, hid]
      rw [this]; exact Or.inr ⟨hrun, t, ht, hact, hrep⟩

/-- Every reachable state satisfies the timer invariant. -/
theorem timerInv_of_reachable (s : State) (h : Reachable s) : TimerInv s := by
  induction h with
  | init => exact timerInv_initial
  | next s e _ ih =>
    cases e with
    | click mode now => exact timerInv_startRound mode now s ih
    | frame results now => exact timerInv_onResults results now s ih
    | timer id random => exact timerInv_fireTimer id random s ih

/-- An idle reachable controller has no pending timer. -/
theorem idle_no_timers (s : State) (h : Reachable s) (hidle : s.isCountdownRunning = false) :
    s.timers = [] := by
  rcases timerInv_of_reachable s h with h1 | ⟨h1, _⟩
  · exact h1
  · rw [hidle] at h1; cases h1

/-! ## The countdown, tick by tick -/

theorem find_fresh (l : List Timer) (n : ℕ) (h : ∀ t ∈ l, t.id < n) :
    l.find? (fun t => t.id == n) = none := by
  rw [List.find?_eq_none]
  intro t ht
  have := h t ht
  simp; omega

theorem filter_fresh (l : List Timer) (n : ℕ) (h : ∀ t ∈ l, t.id < n) :
    l.filter (fun t => t.id != n) = l := by
  rw [List.filter_eq_self]
  intro t ht
  have := h t ht
  simp; omega

theorem countingDown_succ (N : ℤ) (k : ℕ) :
    countingDown N (k + 1) = countingDown N k ++ [CountdownText.number (N - (k : ℤ))] := by
  simp [countingDown, List.range_succ]

/-- The state `k` ticks into a countdown from `N`, for `k < N`. -/
theorem ticks_counting (s : State) (N : ℕ) (hcv : s.countdownValue = (N : ℤ))
    (hfresh : ∀ t ∈ s.timers, t.id < s.nextTimerId) (k : ℕ) (hk : k < N) :
    ticks s.nextTimerId k (runCountdown s) =
      { runCountdown s with
          countdownValue := (N : ℤ) - (k : ℤ)
          countdownText := s.countdownText ++ countingDown N (k + 1) } := by
  induction k with
  | zero => simp [ticks, runCountdown, setInterval, hcv, countingDown, List.range_succ]
  | succ k ih =>
    have hk' : k < N := by omega
    have hpos : (N : ℤ) - (k : ℤ) - 1 > 0 := by omega
    rw [ticks, ih hk']
    simp only [fireTimer, runCountdown, setInterval, List.find?_append,
      find_fresh s.timers s.nextTimerId hfresh, List.find?, beq_self_eq_true, Option.none_or,
      countdownTick, hpos, if_true]
    rw [countingDown_succ N (k + 1)]
    simp [sub_sub]

/-- The state after the `N`-th tick of a countdown from `N`. -/
theorem ticks_shoot (s : State) (N : ℕ) (hN : 1 ≤ N) (hcv : s.countdownValue = (N : ℤ))
    (hfresh : ∀ t ∈ s.timers, t.id < s.nextTimerId) :
    ticks s.nextTimerId N (runCountdown s) =
      { runCountdown s with
          countdownValue := 0
          countdownText := s.countdownText ++ countingDown N N ++ [CountdownText.text "SHOOT!"]
          timers := s.timers ++ [{ id := s.nextTimerId + 1, delay := 200, repeats := false,
                                   callback := TimerCallback.settle }]
          nextTimerId := s.nextTimerId + 2 } := by
  obtain ⟨k, rfl⟩ : ∃ k, N = k + 1 := ⟨N - 1, by omega⟩
  rw [ticks, ticks_counting s (k + 1) hcv hfresh k (by omega)]
  have hzero : ¬ ((((k + 1 : ℕ) : ℤ) - (k : ℤ) - 1) > 0) := by push_cast; omega
  simp only [fireTimer, runCountdown, setInterval, List.find?_append,
    find_fresh s.timers s.nextTimerId hfresh, List.find?, beq_self_eq_true, Option.none_or,
    countdownTick, hzero, if_false, clearInterval, setTimeout, List.filter_append,
    filter_fresh s.timers s.nextTimerId hfresh]
  simp
  intro a ha
  have := hfresh a ha
  omega

/-- Once the countdown interval has been cleared, its id fires nothing. -/
theorem ticks_after_shoot (s : State) (N : ℕ) (hN : 1 ≤ N) (hcv : s.countdownValue = (N : ℤ))
    (hfresh : ∀ t ∈ s.timers, t.id < s.nextTimerId) (j : ℕ) :
    ticks s.nextTimerId (N + j) (runCountdown s) = ticks s.nextTimerId N (runCountdown s) := by
  induction j with
  | zero => rfl
  | succ j ih =>
    have hne : (s.nextTimerId + 1 == s.nextTimerId) = false := by simp
    rw [← Nat.add_assoc, ticks, ih, ticks_shoot s N hN hcv hfresh]
    simp [fireTimer, List.find?_append, find_fresh s.timers s.nextTimerId hfresh, List.find?,
      hne]

/-- An accepted `startRound` is `runCountdown` on a state whose counter is
`COUNTDOWN_SECONDS`. -/
theorem startRound_accepted (mode : String) (now : ℚ) (s : State)
    (hidle : s.isCountdownRunning = false)
    (hhand : now - s.lastHandTimestamp ≤ HAND_PRESENT_TIMEOUT_MS) :
    startRound mode now s =
      runCountdown
        { s with currentMode := mode, isCountdownRunning := true, startButtonsDisabled := true
                 countdownValue := COUNTDOWN_SECONDS
                 countdownText := s.countdownText ++ [CountdownText.text "Ready"]
                 banner := "Counting down..." } := by
  have h : ¬ (now - s.lastHandTimestamp > HAND_PRESENT_TIMEOUT_MS) := not_lt.mpr hhand
  simp [startRound, hidle, h, resetCountdownUi, disableStartButtons]

/-- The half of the hand-presence guard that holds: an idle controller whose stored
timestamp is more than the timeout before the request rejects it, changing only the
countdown text. -/
theorem startRound_rejects_stale_hand (mode : String) (now : ℚ) (s : State)
    (hidle : s.isCountdownRunning = false)
    (hold : now - s.lastHandTimestamp > HAND_PRESENT_TIMEOUT_MS) :
    startRound mode now s =
      { s with countdownText :=
          s.countdownText ++ [CountdownText.text "Show your hand to start"] } := by
  simp [startRound, hidle, hold]

/-! ## The claims -/

/-- C1: `classifyGesture` is total on the five extension booleans; it yields PAPER exactly
when all five fingers are extended, ROCK exactly when none is, SCISSORS exactly when index
and middle are extended and thumb, ring and pinky are not, and UNKNOWN exactly for every
other combination. -/
theorem classifyGesture_patterns (fingers : FingerStates) :
    (classifyGesture fingers = Gesture.PAPER ↔
      (fingers.thumb = true ∧ fingers.index = true ∧ fingers.middle = true ∧
        fingers.ring = true ∧ fingers.pinky = true)) ∧
    (classifyGesture fingers = Gesture.ROCK ↔
      (fingers.thumb = false ∧ fingers.index = false ∧ fingers.middle = false ∧
        fingers.ring = false ∧ fingers.pinky = false)) ∧
    (classifyGesture fingers = Gesture.SCISSORS ↔
      (fingers.thumb = false ∧ fingers.index = true ∧ fingers.middle = true ∧
        fingers.ring = false ∧ fingers.pinky = false)) ∧
    (classifyGesture fingers = Gesture.UNKNOWN ↔
      (¬ (fingers.thumb = true ∧ fingers.index = true ∧ fingers.middle = true ∧
          fingers.ring = true ∧ fingers.pinky = true) ∧
       ¬ (fingers.thumb = false ∧ fingers.index = false ∧ fingers.middle = false ∧
          fingers.ring = false ∧ fingers.pinky = false) ∧
       ¬ (fingers.thumb = false ∧ fingers.index = true ∧ fingers.middle = true ∧
          fingers.ring = false ∧ fingers.pinky = false))) := by
  obtain ⟨t, i, m, r, p, c⟩ := fingers
  cases t <;> cases i <;> cases m <;> cases r <;> cases p <;> simp [classifyGesture]

/-- C2: `determineWinner` leaves the tallies alone when the player gesture is UNKNOWN,
adds one draw when the two gestures are equal, adds one player win on ROCK/SCISSORS,
PAPER/ROCK and SCISSORS/PAPER, and adds one AI win on the three reverse pairs; in each
case the other tallies, and everything but the banner, are unchanged. -/
theorem determineWinner_outcomes (p a : Gesture) (s : State) :
    (p = Gesture.UNKNOWN →
      determineWinner p a s = { s with banner := "Gesture unclear. Try again." }) ∧
    (p ≠ Gesture.UNKNOWN → p = a →
      determineWinner p a s =
        { s with scores := { player := s.scores.player, ai := s.scores.ai,
                             draw := s.scores.draw + 1 }
                 banner := "It\x27s a draw!" }) ∧
    ((p, a) ∈ [(Gesture.ROCK, Gesture.SCISSORS), (Gesture.PAPER, Gesture.ROCK),
               (Gesture.SCISSORS, Gesture.PAPER)] →
      determineWinner p a s =
        { s with scores := { player := s.scores.player + 1, ai := s.scores.ai,
                             draw := s.scores.draw }
                 banner := "Player wins!" }) ∧
    ((p, a) ∈ [(Gesture.SCISSORS, Gesture.ROCK), (Gesture.ROCK, Gesture.PAPER),
               (Gesture.PAPER, Gesture.SCISSORS)] →
      determineWinner p a s =
        { s with scores := { player := s.scores.player, ai := s.scores.ai + 1,
                             draw := s.scores.draw }
                 banner := "AI takes the round!" }) := by
  refine ⟨?_, ?_, ?_, ?_⟩
  · intro h; simp [determineWinner, h]
  · intro h1 h2; subst h2; simp [determineWinner, h1]
  · intro h; cases p <;> cases a <;> simp [determineWinner] at h ⊢
  · intro h; cases p <;> cases a <;> simp [determineWinner] at h ⊢

/-- C2 at the scenario of the specification: ROCK against PAPER from the initial tally
gives the AI its first point and nothing else. -/
theorem determineWinner_outcomes_witness :
    (determineWinner Gesture.ROCK Gesture.PAPER initialState).scores =
      { player := 0, ai := 1, draw := 0 } := by
  rw [(determineWinner_outcomes Gesture.ROCK Gesture.PAPER initialState).2.2.2 (by decide)]
  rfl

/-- C3: in EVIL mode, for a player gesture other than UNKNOWN and any random draw,
`chooseAiGesture` returns the gesture that beats the player's, and `determineWinner` on
that pair adds one AI win and nothing else. -/
theorem evil_mode_beats_player (p : Gesture) (random : ℚ) (s : State)
    (hp : p ≠ Gesture.UNKNOWN) :
    ∃ g, chooseAiGesture AI_MODE.EVIL p random = some g ∧
      (p, g) ∈ [(Gesture.ROCK, Gesture.PAPER), (Gesture.PAPER, Gesture.SCISSORS),
                (Gesture.SCISSORS, Gesture.ROCK)] ∧
      determineWinner p g s =
        { s with scores := { player := s.scores.player, ai := s.scores.ai + 1,
                             draw := s.scores.draw }
                 banner := "AI takes the round!" } := by
  rw [chooseAiGesture_evil p random hp]
  cases p <;> simp [getWinningGestureAgainst, determineWinner] at hp ⊢

/-- C3 at PAPER with the draw `1 / 2`. -/
theorem evil_mode_beats_player_witness :
    Gesture.PAPER ≠ Gesture.UNKNOWN ∧
    ∃ g, chooseAiGesture AI_MODE.EVIL Gesture.PAPER (1 / 2) = some g ∧
      (Gesture.PAPER, g) ∈ [(Gesture.ROCK, Gesture.PAPER), (Gesture.PAPER, Gesture.SCISSORS),
                (Gesture.SCISSORS, Gesture.ROCK)] ∧
      determineWinner Gesture.PAPER g initialState =
        { initialState with
            scores := { player := initialState.scores.player,
                        ai := initialState.scores.ai + 1,
                        draw := initialState.scores.draw }
            banner := "AI takes the round!" } :=
  ⟨by decide, evil_mode_beats_player Gesture.PAPER (1 / 2) initialState (by decide)⟩

/-- C4: for every mode, every player gesture and every draw in `[0, 1)` that
`Math.random()` can return (a double), the random index lies inside the option array and
`chooseAiGesture` returns one of ROCK, PAPER, SCISSORS, never UNKNOWN. NORMAL mode, and
EVIL mode with an UNKNOWN player gesture, return the option the draw selects: with `3r`
the exact triple of the draw, ROCK (index 0) when `3r < 1 - 2 ^ (-54)`, PAPER (index 1)
when `1 - 2 ^ (-54) ≤ 3r < 2 - 2 ^ (-53)`, SCISSORS (index 2) from `2 - 2 ^ (-53)` on. The
index is the floor of the double product, so it is the exact floor of `3r` except within
half a spacing below 1 or 2, where the product rounds up to the integer. -/
theorem chooseAiGesture_in_options (mode : String) (p : Gesture) (random : ℚ)
    (h0 : 0 ≤ random) (h1 : random < 1) (hd : isDouble random) :
    (0 ≤ randomIndex random ∧ randomIndex random < (options.length : ℤ)) ∧
    (∃ g, chooseAiGesture mode p random = some g ∧ g ∈ options ∧ g ≠ Gesture.UNKNOWN) ∧
    (random * 3 < 1 - 1 / 2 ^ 54 →
      randomIndex random = 0 ∧
      chooseAiGesture AI_MODE.NORMAL p random = some Gesture.ROCK ∧
      chooseAiGesture AI_MODE.EVIL Gesture.UNKNOWN random = some Gesture.ROCK) ∧
    (1 - 1 / 2 ^ 54 ≤ random * 3 → random * 3 < 2 - 1 / 2 ^ 53 →
      randomIndex random = 1 ∧
      chooseAiGesture AI_MODE.NORMAL p random = some Gesture.PAPER ∧
      chooseAiGesture AI_MODE.EVIL Gesture.UNKNOWN random = some Gesture.PAPER) ∧
    (2 - 1 / 2 ^ 53 ≤ random * 3 →
      randomIndex random = 2 ∧
      chooseAiGesture AI_MODE.NORMAL p random = some Gesture.SCISSORS ∧
      chooseAiGesture AI_MODE.EVIL Gesture.UNKNOWN random = some Gesture.SCISSORS) ∧
    (random * 3 < 1 - 1 / 2 ^ 54 ∨
      (1 - 1 / 2 ^ 54 ≤ random * 3 ∧ random * 3 < 2 - 1 / 2 ^ 53) ∨
      2 - 1 / 2 ^ 53 ≤ random * 3) := by
  have hnorm : chooseAiGesture AI_MODE.NORMAL p random =
      elementAt options (randomIndex random) :=
    chooseAiGesture_random _ _ _ (by simp [AI_MODE.NORMAL, AI_MODE.EVIL])
  have hevil : chooseAiGesture AI_MODE.EVIL Gesture.UNKNOWN random =
      elementAt options (randomIndex random) :=
    chooseAiGesture_random _ _ _ (by simp)
  have hmax : random * 3 < 3 - 1 / 2 ^ 52 := by
    have := isDouble_lt_one random hd h1
    norm_num at this ⊢
    linarith
  have hzero : random * 3 < 1 - 1 / 2 ^ 54 → randomIndex random = 0 := fun h => by
    rw [randomIndex_eq]; exact floor_roundDouble_zero _ (by linarith) h
  have hone : 1 - 1 / 2 ^ 54 ≤ random * 3 → random * 3 < 2 - 1 / 2 ^ 53 →
      randomIndex random = 1 := fun ha hb => by
    rw [randomIndex_eq]; exact floor_roundDouble_one _ ha hb
  have htwo : 2 - 1 / 2 ^ 53 ≤ random * 3 → randomIndex random = 2 := fun h => by
    rw [randomIndex_eq]; exact floor_roundDouble_two _ h hmax
  have hcases : random * 3 < 1 - 1 / 2 ^ 54 ∨
      (1 - 1 / 2 ^ 54 ≤ random * 3 ∧ random * 3 < 2 - 1 / 2 ^ 53) ∨
      2 - 1 / 2 ^ 53 ≤ random * 3 := by
    rcases lt_or_le (random * 3) (1 - 1 / 2 ^ 54) with h | h
    · exact Or.inl h
    · rcases lt_or_le (random * 3) (2 - 1 / 2 ^ 53) with h2 | h2
      · exact Or.inr (Or.inl ⟨h, h2⟩)
      · exact Or.inr (Or.inr h2)
  have hidx : randomIndex random = 0 ∨ randomIndex random = 1 ∨ randomIndex random = 2 := by
    rcases hcases with h | ⟨ha, hb⟩ | h
    · exact Or.inl (hzero h)
    · exact Or.inr (Or.inl (hone ha hb))
    · exact Or.inr (Or.inr (htwo h))
  refine ⟨⟨by omega, by simp only [options, List.length_cons, List.length_nil]; omega⟩,
    ?_, ?_, ?_, ?_, hcases⟩
  · by_cases h : mode = AI_MODE.EVIL ∧ p ≠ Gesture.UNKNOWN
    · obtain ⟨hm, hp⟩ := h
      subst hm
      rw [chooseAiGesture_evil p random hp]
      cases p <;> simp [getWinningGestureAgainst, options] at hp ⊢
    · rw [chooseAiGesture_random mode p random h]
      rcases hidx with h | h | h <;> rw [h] <;> simp [elementAt, options]
  · intro h
    rw [hnorm, hevil, hzero h]
    exact ⟨rfl, elementAt_options.1, elementAt_options.1⟩
  · intro ha hb
    rw [hnorm, hevil, hone ha hb]
    exact ⟨rfl, elementAt_options.2.1, elementAt_options.2.1⟩
  · intro h
    rw [hnorm, hevil, htwo h]
    exact ⟨rfl, elementAt_options.2.2, elementAt_options.2.2⟩

/-- C4 at NORMAL mode, player gesture ROCK and the draw `0.6666666666666666`: the exact
triple is below 2, the double product is 2, and the script selects SCISSORS. -/
theorem chooseAiGesture_in_options_witness :
    (0 : ℚ) ≤ twoThirdsBelow ∧ twoThirdsBelow < 1 ∧ isDouble twoThirdsBelow ∧
    twoThirdsBelow * 3 < 2 ∧
    randomIndex twoThirdsBelow = 2 ∧
    chooseAiGesture AI_MODE.NORMAL Gesture.ROCK twoThirdsBelow = some Gesture.SCISSORS ∧
    chooseAiGesture AI_MODE.EVIL Gesture.UNKNOWN twoThirdsBelow = some Gesture.SCISSORS :=
  ⟨by norm_num [twoThirdsBelow], by norm_num [twoThirdsBelow], isDouble_twoThirdsBelow,
   by norm_num [twoThirdsBelow],
   (chooseAiGesture_in_options AI_MODE.NORMAL Gesture.ROCK twoThirdsBelow
      (by norm_num [twoThirdsBelow]) (by norm_num [twoThirdsBelow])
      isDouble_twoThirdsBelow).2.2.2.2.1 (by norm_num [twoThirdsBelow])⟩

/-- C5: in every reachable state with a round in progress, `startRound` changes nothing,
whatever the mode and the time of the call. -/
theorem startRound_noop_in_round (s : State) (mode : String) (now : ℚ) (hs : Reachable s)
    (hround : roundInProgress s) : startRound mode now s = s := by
  have hrun : s.isCountdownRunning = true := by
    rcases hround with h | h
    · exact h
    · rcases timerInv_of_reachable s hs with h1 | ⟨h1, _⟩
      · exact absurd h1 h
      · exact h1
  simp [startRound, hrun]

/-- Firing a timer keeps the controller among the reachable states. -/
theorem reachable_ticks (id : ℕ) (k : ℕ) (s : State) (h : Reachable s) :
    Reachable (ticks id k s) := by
  induction k with
  | zero => exact h
  | succ k ih => exact Reachable.next _ (Event.timer id 0) ih

/-- The draw `1 / 2` selects the middle option. -/
theorem chooseAiGesture_half :
    chooseAiGesture AI_MODE.NORMAL Gesture.UNKNOWN (1 / 2) = some Gesture.PAPER := by
  rw [chooseAiGesture_random _ _ _ (by simp), randomIndex_half]
  exact elementAt_options.2.1

/-- The cooldown state, field by field. -/
theorem cooldownState_eq :
    cooldownState =
      { initialState with
          isCountdownRunning := true
          activeCountdownTimer := some 1
          countdownValue := 0
          countdownText := [CountdownText.text "Ready", CountdownText.number 3,
            CountdownText.number 2, CountdownText.number 1, CountdownText.text "SHOOT!"]
          banner := "Gesture unclear. Try again."
          aiGestureLabel := some Gesture.PAPER
          startButtonsDisabled := true
          timers := [{ id := 3, delay := 1500, repeats := false,
                       callback := TimerCallback.cooldown }]
          nextTimerId := 4 } := by
  norm_num [cooldownState, step, ticks, fireTimer, startRound, initialState,
    HAND_PRESENT_TIMEOUT_MS, disableStartButtons, resetCountdownUi, runCountdown, setInterval,
    List.find?, countdownTick, COUNTDOWN_SECONDS, clearInterval, setTimeout, concludeRound,
    chooseAiGesture_half, determineWinner]

/-- C5 in the cooldown phase of the first round: a second request, in EVIL mode at
3500 ms, leaves the state as it is. -/
theorem startRound_noop_in_round_witness :
    Reachable cooldownState ∧ roundInProgress cooldownState ∧
    startRound AI_MODE.EVIL 3500 cooldownState = cooldownState :=
  have hreach : Reachable cooldownState :=
    Reachable.next _ _ (reachable_ticks 1 3 _ (Reachable.next _ _ Reachable.init))
  have hround : roundInProgress cooldownState := Or.inl (by rw [cooldownState_eq])
  ⟨hreach, hround, startRound_noop_in_round cooldownState AI_MODE.EVIL 3500 hreach hround⟩

/-- C6, the failing input: in the initial state no hand frame has been observed, yet a
request made 1000 ms after start-up is accepted, because the stored timestamp starts at 0
and `1000 - 0` is within the timeout. The round-in-progress flag goes up, the countdown
interval is started and the counter is shown. -/
theorem initial_request_accepted_without_hand :
    initialState.lastHandTimestamp = 0 ∧
    initialState.isCountdownRunning = false ∧
    (startRound AI_MODE.NORMAL 1000 initialState).isCountdownRunning = true ∧
    (startRound AI_MODE.NORMAL 1000 initialState).timers =
      [{ id := 1, delay := 1000, repeats := true, callback := TimerCallback.countdownTick }] ∧
    (startRound AI_MODE.NORMAL 1000 initialState).countdownText =
      [CountdownText.text "Ready", CountdownText.number 3] := by
  norm_num [startRound, initialState, HAND_PRESENT_TIMEOUT_MS, disableStartButtons,
    resetCountdownUi, runCountdown, setInterval, COUNTDOWN_SECONDS]

/-- C7, refuted at the mode `"mirror"`: it is neither NORMAL nor EVIL, yet `startRound`
starts a round and records it, and `chooseAiGesture` returns a gesture. -/
theorem invalid_mode_not_rejected :
    "mirror" ≠ AI_MODE.NORMAL ∧ "mirror" ≠ AI_MODE.EVIL ∧
    (startRound "mirror" 1000 initialState).isCountdownRunning = true ∧
    (startRound "mirror" 1000 initialState).currentMode = "mirror" ∧
    (startRound "mirror" 1000 initialState).timers ≠ [] ∧
    chooseAiGesture "mirror" Gesture.ROCK (1 / 2) = some Gesture.PAPER := by
  refine ⟨by decide, by decide, ?_, ?_, ?_, ?_⟩
  · norm_num [startRound, initialState, HAND_PRESENT_TIMEOUT_MS, disableStartButtons,
      resetCountdownUi, runCountdown, setInterval]
  · norm_num [startRound, initialState, HAND_PRESENT_TIMEOUT_MS, disableStartButtons,
      resetCountdownUi, runCountdown, setInterval]
  · norm_num [startRound, initialState, HAND_PRESENT_TIMEOUT_MS, disableStartButtons,
      resetCountdownUi, runCountdown, setInterval]
  · rw [chooseAiGesture_random _ _ _ (by decide), randomIndex_half]
    exact elementAt_options.2.1

/-- C7 as amended: a mode that is neither NORMAL nor EVIL is not validated. `startRound`
decides on the flag and the hand timestamp alone, as for NORMAL, and when it accepts it
starts the round with the given mode recorded; `chooseAiGesture` returns the option at the
random index, as for NORMAL. -/
theorem invalid_mode_as_normal (mode : String) (p : Gesture) (random now : ℚ) (s : State)
    (_hn : mode ≠ AI_MODE.NORMAL) (he : mode ≠ AI_MODE.EVIL) :
    chooseAiGesture mode p random = elementAt options (randomIndex random) ∧
    chooseAiGesture mode p random = chooseAiGesture AI_MODE.NORMAL p random ∧
    startRound mode now s =
      (if s.isCountdownRunning = true ∨ now - s.lastHandTimestamp > HAND_PRESENT_TIMEOUT_MS
       then startRound AI_MODE.NORMAL now s
       else { startRound AI_MODE.NORMAL now s with currentMode := mode }) ∧
    (s.isCountdownRunning = false → now - s.lastHandTimestamp ≤ HAND_PRESENT_TIMEOUT_MS →
      (startRound mode now s).isCountdownRunning = true ∧
      (startRound mode now s).currentMode = mode) := by
  have hne : ¬ (mode = AI_MODE.EVIL ∧ p ≠ Gesture.UNKNOWN) := fun h => he h.1
  have hnorm : ¬ (AI_MODE.NORMAL = AI_MODE.EVIL ∧ p ≠ Gesture.UNKNOWN) := by
    simp [AI_MODE.NORMAL, AI_MODE.EVIL]
  refine ⟨chooseAiGesture_random mode p random hne, ?_, ?_, ?_⟩
  · rw [chooseAiGesture_random mode p random hne,
      chooseAiGesture_random AI_MODE.NORMAL p random hnorm]
  · cases hrun : s.isCountdownRunning with
    | true => simp [startRound, hrun]
    | false =>
      by_cases hhand : now - s.lastHandTimestamp > HAND_PRESENT_TIMEOUT_MS
      · simp [startRound, hrun, hhand]
      · simp [startRound, hrun, hhand, disableStartButtons, resetCountdownUi, runCountdown,
          setInterval]
  · intro hidle hhand
    rw [startRound_accepted mode now s hidle hhand]
    simp [runCountdown, setInterval]

/-- C7 as amended, at the mode `"mirror"` from the initial state at 1000 ms. -/
theorem invalid_mode_as_normal_witness :
    "mirror" ≠ AI_MODE.NORMAL ∧ "mirror" ≠ AI_MODE.EVIL ∧
    chooseAiGesture "mirror" Gesture.ROCK (1 / 2) =
      chooseAiGesture AI_MODE.NORMAL Gesture.ROCK (1 / 2) :=
  ⟨by decide, by decide,
   (invalid_mode_as_normal "mirror" Gesture.ROCK (1 / 2) 1000 initialState (by decide)
      (by decide)).2.1⟩

/-- C8: a countdown started by `runCountdown` with the counter at `N ≥ 1` writes the `N`
values `N, N - 1, ..., 1` to the countdown element, the first when it starts and one more
on each of the first `N - 1` ticks, each 1 less than the one before; during that time the
interval stays pending. The `N`-th tick writes "SHOOT!", removes the interval and
schedules the 200 ms resolution timer once, so that any further firing of the interval id
changes nothing. An accepted `startRound` is such a countdown with `N = COUNTDOWN_SECONDS`,
which is 3. -/
theorem countdown_sequence (s : State) (N : ℕ) (hN : 1 ≤ N)
    (hcv : s.countdownValue = (N : ℤ)) (hfresh : ∀ t ∈ s.timers, t.id < s.nextTimerId) :
    (∀ k, k < N →
      (ticks s.nextTimerId k (runCountdown s)).countdownText =
        s.countdownText ++ countingDown N (k + 1) ∧
      (ticks s.nextTimerId k (runCountdown s)).timers =
        s.timers ++ [{ id := s.nextTimerId, delay := 1000, repeats := true,
                       callback := TimerCallback.countdownTick }]) ∧
    (ticks s.nextTimerId N (runCountdown s)).countdownText =
      s.countdownText ++ countingDown N N ++ [CountdownText.text "SHOOT!"] ∧
    (ticks s.nextTimerId N (runCountdown s)).timers =
      s.timers ++ [{ id := s.nextTimerId + 1, delay := 200, repeats := false,
                     callback := TimerCallback.settle }] ∧
    (∀ j, ticks s.nextTimerId (N + j) (runCountdown s) =
      ticks s.nextTimerId N (runCountdown s)) ∧
    (countingDown N N).length = N ∧
    (∀ i, i < N → (countingDown N N)[i]? = some (CountdownText.number ((N : ℤ) - (i : ℤ)))) ∧
    COUNTDOWN_SECONDS = 3 ∧
    (∀ (mode : String) (now : ℚ) (s0 : State), s0.isCountdownRunning = false →
      now - s0.lastHandTimestamp ≤ HAND_PRESENT_TIMEOUT_MS →
      ∃ s1, startRound mode now s0 = runCountdown s1 ∧
        s1.countdownValue = COUNTDOWN_SECONDS ∧ s1.timers = s0.timers ∧
        s1.nextTimerId = s0.nextTimerId) := by
  refine ⟨?_, ?_, ?_, ?_, ?_, ?_, rfl, ?_⟩
  · intro k hk
    rw [ticks_counting s N hcv hfresh k hk]
    simp [runCountdown, setInterval]
  · rw [ticks_shoot s N hN hcv hfresh]
  · rw [ticks_shoot s N hN hcv hfresh]
  · exact ticks_after_shoot s N hN hcv hfresh
  · simp [countingDown]
  · intro i hi
    simp [countingDown, List.getElem?_range, hi]
  · intro mode now s0 hidle hhand
    exact ⟨_, startRound_accepted mode now s0 hidle hhand, rfl, rfl, rfl⟩

/-- C8 at the default start value 3, from the initial state: after three ticks the
countdown element has received 3, 2, 1 and then "SHOOT!", and only the resolution timer
is pending. -/
theorem countdown_sequence_witness :
    (ticks 1 3 (runCountdown initialState)).countdownText =
      [CountdownText.number 3, CountdownText.number 2, CountdownText.number 1,
       CountdownText.text "SHOOT!"] ∧
    (ticks 1 3 (runCountdown initialState)).timers =
      [{ id := 2, delay := 200, repeats := false, callback := TimerCallback.settle }] := by
  have h := countdown_sequence initialState 3 (by decide) rfl (by simp [initialState])
  refine ⟨?_, ?_⟩
  · have h1 := h.2.1
    simpa [initialState, countingDown, List.range_succ] using h1
  · have h2 := h.2.2.1
    simpa [initialState] using h2

/-- C9: on a 21-point frame `computeFingerStates` succeeds; the thumb is reported extended
exactly when the hand is RIGHT and the tip's x is below the IP joint's x by more than 0.12,
or the hand is LEFT and the tip's x is above the IP joint's x by more than 0.12; index,
middle, ring and pinky are reported extended exactly when the tip's y is below the pip
joint's y by more than 0.02, for the landmark pairs (8, 6), (12, 10), (16, 14), (20, 18). -/
theorem computeFingerStates_thresholds (L : List LandmarkPoint) (h : Handedness)
    (hlen : L.length = 21) :
    ∃ fs, computeFingerStates L h.label = some fs ∧
      (fs.thumb = true ↔
        (h = Handedness.RIGHT ∧ L[4].x < L[3].x - 12 / 100) ∨
        (h = Handedness.LEFT ∧ L[4].x > L[3].x + 12 / 100)) ∧
      (fs.index = true ↔ L[8].y < L[6].y - 2 / 100) ∧
      (fs.middle = true ↔ L[12].y < L[10].y - 2 / 100) ∧
      (fs.ring = true ↔ L[16].y < L[14].y - 2 / 100) ∧
      (fs.pinky = true ↔ L[20].y < L[18].y - 2 / 100) := by
  have hR : (toLowerCase "Right" == "right") = true := by decide
  have hL : (toLowerCase "Left" == "right") = false := by decide
  cases h <;>
    simp [computeFingerStates, fingerExtended, Handedness.label, hR, hL, hlen,
      List.getElem?_eq_getElem, THUMB_EXTENSION_TOLERANCE, FINGER_EXTENSION_TOLERANCE]

/-- C9 on the sample frame: it has 21 points, and for a right hand `computeFingerStates`
succeeds on it and reports the thumb extended and the index finger not. -/
theorem computeFingerStates_thresholds_witness :
    sampleFrame.length = 21 ∧
    ∃ fs, computeFingerStates sampleFrame Handedness.RIGHT.label = some fs ∧
      fs.thumb = true ∧ fs.index = false := by
  have hlen : sampleFrame.length = 21 := by simp [sampleFrame]
  obtain ⟨fs, hfs, hthumb, hindex, _⟩ :=
    computeFingerStates_thresholds sampleFrame Handedness.RIGHT hlen
  refine ⟨hlen, fs, hfs, hthumb.mpr (Or.inl ⟨rfl, ?_⟩), ?_⟩
  · norm_num [sampleFrame]
  · rw [← Bool.not_eq_true, hindex]
    norm_num [sampleFrame]

/-- C10, refuted: the number of combinations classified UNKNOWN is not 28. -/
theorem unknown_count_ne_28 :
    (Finset.univ.filter fun v : Bool × Bool × Bool × Bool × Bool =>
      classifyGesture (fingersOf v.1 v.2.1 v.2.2.1 v.2.2.2.1 v.2.2.2.2) =
        Gesture.UNKNOWN).card ≠ 28 := by
  decide

/-- C10 as amended: of the 32 combinations of the five extension booleans, exactly 29 are
classified UNKNOWN. -/
theorem unknown_count_29 :
    (Finset.univ : Finset (Bool × Bool × Bool × Bool × Bool)).card = 32 ∧
    (Finset.univ.filter fun v : Bool × Bool × Bool × Bool × Bool =>
      classifyGesture (fingersOf v.1 v.2.1 v.2.2.1 v.2.2.2.1 v.2.2.2.2) =
        Gesture.UNKNOWN).card = 29 := by
  decide

end RPS
